import Mathlib

/-!
Shallow embedding of the osrs-price-tracker repository
(src/ge_tracker.py and src/ui_tracker.py).

Modelling conventions:
* HTTP calls are modelled by an `HttpResult` oracle passed to each
  operation: either the underlying client raised a network exception
  (`networkError`) or it delivered a response with a status code and a
  parsed JSON body.  An uncaught Python exception is modelled as
  `Except.error PyError.requestException`.
* Prices are `Int` (the SQLite columns are REAL, but every value stored
  by this program is an integer price returned by the API, and the
  deltas are plain subtractions).
* The SQLite table `items` from `initDB` is a list of `Row` plus the
  AUTOINCREMENT counter.  The schema declares
  `id INTEGER PRIMARY KEY AUTOINCREMENT, name TEXT NOT NULL, ...` with
  no UNIQUE constraint on `name`.
* Python dicts (`GETracker.items`, `all_items`) are association lists
  with unique keys in insertion order; assignment overwrites in place.
* `print` output is recorded where a claim depends on it
  (`FetchResult.printed`); elsewhere the branch structure of the source
  is kept and the message dropped.
-/

/-- Outcome of a `requests.get` call: either the client raised (network
error) or a response with a status code and parsed body was delivered. -/
inductive HttpResult (α : Type) where
  | networkError
  | response (status_code : Nat) (body : α)
deriving DecidableEq, Repr

/-- A Python exception escaping a function (here only
`requests.exceptions.RequestException` from an HTTP call). -/
inductive PyError where
  | requestException
deriving DecidableEq, Repr

/-- One entry of the /mapping catalog: the fields `id` and `name` that
`get_item_id` and `fetch_all_items` read. -/
structure CatalogEntry where
  id : Nat
  name : String
deriving DecidableEq, Repr

/-- One value of the /latest "data" map: the fields `high`, `low`,
`highTime` that `fetch_prices` reads. -/
structure PriceData where
  high : Int
  low : Int
  highTime : Nat
deriving DecidableEq, Repr

/-- One entry of the dict `fetch_prices` builds per tracked item.
`last_updated` keeps the raw `highTime` epoch value
(`datetime.fromtimestamp` is an injective presentation change). -/
structure PriceInfo where
  high : Int
  low : Int
  last_updated : Nat
deriving DecidableEq, Repr

/-- What one `fetch_prices` call produced: the results dict, how many
HTTP requests were issued, and the console messages printed. -/
structure FetchResult where
  result : List (String × PriceInfo)
  requestsMade : Nat
  printed : List String
deriving DecidableEq, Repr

/-- Python dict assignment `d[k] = v`: overwrite in place if the key is
present, otherwise append at the end. -/
def dictInsert (d : List (String × Nat)) (k : String) (v : Nat) : List (String × Nat) :=
  if d.any (fun p => p.1 == k) then d.map (fun p => if p.1 == k then (k, v) else p)
  else d ++ [(k, v)]

/-- GETracker.get_item_id (src/ge_tracker.py lines 21-29): GET /mapping;
on status 200 scan the catalog and return the id of the first entry
whose name matches case-insensitively; otherwise fall through to
`return None`.  A network exception from `requests.get` is not caught
and propagates. -/
def get_item_id (resp : HttpResult (List CatalogEntry)) (item_name : String) :
    Except PyError (Option Nat) :=
  match resp with
  | .networkError => .error .requestException
  | .response status items =>
      if status == 200 then
        .ok ((items.find? (fun it => it.name.toLower == item_name.toLower)).map CatalogEntry.id)
      else .ok none

/-- GETracker.fetch_prices (src/ge_tracker.py lines 31-54).  With no
tracked items it prints a hint and returns the empty dict before any
HTTP request.  Otherwise it issues GET /latest; `body` stands for
`response.json()["data"]`, keyed by `str(item_id)`.  On status 200 each
tracked item found in the data contributes a result entry and each item
absent contributes a "No data available" print; on any other status a
failure message is printed and the empty dict returned.  A network
exception from `requests.get` is not caught and propagates. -/
def fetch_prices (items : List (String × Nat))
    (resp : HttpResult (List (String × PriceData))) : Except PyError FetchResult :=
  if items.isEmpty then
    .ok { result := [], requestsMade := 0,
          printed := ["No items to track. Add items using add_item() method."] }
  else
    match resp with
    | .networkError => .error .requestException
    | .response status data =>
        if status == 200 then
          .ok { result := items.filterMap (fun it =>
                  (data.lookup (toString it.2)).map (fun d =>
                    (it.1, { high := d.high, low := d.low, last_updated := d.highTime }))),
                requestsMade := 1,
                printed := items.filterMap (fun it =>
                  match data.lookup (toString it.2) with
                  | some _ => none
                  | none => some ("No data available for " ++ it.1)) }
        else
          .ok { result := [], requestsMade := 1,
                printed := ["Failed to fetch prices. Please try again later."] }

/-- OSRSPriceTracker.fetch_all_items (src/ui_tracker.py lines 56-66):
GET /mapping inside try/except; on status 200 build the dict
name -> id by comprehension (later duplicates overwrite earlier ones);
on any other status or any exception return the empty dict. -/
def fetch_all_items (resp : HttpResult (List CatalogEntry)) : List (String × Nat) :=
  match resp with
  | .networkError => []
  | .response status catalog =>
      if status == 200 then
        catalog.foldl (fun d e => dictInsert d e.name e.id) []
      else []

/-- One row of the SQLite table `items` created by initDB
(src/ui_tracker.py lines 136-149).  The schema is
`id INTEGER PRIMARY KEY AUTOINCREMENT, name TEXT NOT NULL,
high_price REAL NOT NULL, low_price REAL NOT NULL,
last_high_price REAL, last_low_price REAL`.
`name` carries no UNIQUE constraint; the two last columns are nullable. -/
structure Row where
  id : Nat
  name : String
  high_price : Int
  low_price : Int
  last_high_price : Option Int
  last_low_price : Option Int
deriving DecidableEq, Repr

/-- The persisted store: the rows of the `items` table in rowid order,
plus the AUTOINCREMENT counter used for the next inserted id. -/
structure DB where
  rows : List Row
  nextId : Nat
deriving DecidableEq, Repr

/-- The table created by initDB in a fresh database file: empty,
AUTOINCREMENT starts at 1. -/
def initDB : DB := { rows := [], nextId := 1 }

/-- The mutable state of OSRSPriceTracker relevant to the tracked core:
the in-memory dict `self.ge_tracker.items` (name -> id), the SQLite
table, and the names held by the `tracked_items` QListWidget (each
item's Qt.UserRole data, in list order). -/
structure AppState where
  tracker_items : List (String × Nat)
  db : DB
  uiItems : List String
deriving DecidableEq, Repr

/-- OSRSPriceTracker.updateItemColor (src/ui_tracker.py lines 245-251):
green when both changes are positive, red when both are negative, amber
otherwise. -/
def updateItemColor (high_change low_change : Int) : String :=
  if high_change > 0 ∧ low_change > 0 then "#4CAF50"
  else if high_change < 0 ∧ low_change < 0 then "#F44336"
  else "#FFC107"

/-- The data one entry of the `tracked_items` list widget displays:
the values addItemToList / updateItemInList compute before rendering
them to text (`high_change = high_price - last_high_price`,
`low_change = low_price - last_low_price`) and the colour chosen by
updateItemColor. -/
structure DisplayEntry where
  name : String
  high_price : Int
  low_price : Int
  high_change : Int
  low_change : Int
  color : String
deriving DecidableEq, Repr

/-- OSRSPriceTracker.addItemToList (src/ui_tracker.py lines 212-226):
computes the two changes against the last prices it is given, renders
them, and colours the new list item via updateItemColor. -/
def addItemToList (item_name : String)
    (high_price low_price last_high_price last_low_price : Int) : DisplayEntry :=
  { name := item_name, high_price := high_price, low_price := low_price,
    high_change := high_price - last_high_price,
    low_change := low_price - last_low_price,
    color := updateItemColor (high_price - last_high_price) (low_price - last_low_price) }

/-- OSRSPriceTracker.updateItemInList (src/ui_tracker.py lines 228-243):
same computation as addItemToList, applied to the existing list item
with the given name. -/
def updateItemInList (item_name : String)
    (high_price low_price last_high_price last_low_price : Int) : DisplayEntry :=
  { name := item_name, high_price := high_price, low_price := low_price,
    high_change := high_price - last_high_price,
    low_change := low_price - last_low_price,
    color := updateItemColor (high_price - last_high_price) (low_price - last_low_price) }

/-- The SQL `INSERT OR REPLACE INTO items (name, high_price, low_price,
last_high_price, last_low_price) VALUES (?, ?, ?, ?, ?)` executed by
addSelectedItem.  Because the schema of initDB puts no UNIQUE
constraint on `name` and the only key, `id`, is auto-assigned fresh,
the REPLACE clause can never fire: the statement always appends a new
row with the next AUTOINCREMENT id. -/
def insertOrReplaceItems (db : DB) (item_name : String)
    (high_price low_price last_high_price last_low_price : Int) : DB :=
  { rows := db.rows ++ [{ id := db.nextId, name := item_name,
                          high_price := high_price, low_price := low_price,
                          last_high_price := some last_high_price,
                          last_low_price := some last_low_price }],
    nextId := db.nextId + 1 }

/-- How addSelectedItem ended: a row was inserted and displayed, or the
"No price data available" branch ran, or the "Could not find item ID"
branch ran (which also covers a falsy id 0, per `if item_id:`). -/
inductive AddOutcome where
  | added (entry : DisplayEntry)
  | noPriceData
  | itemNotFound
deriving DecidableEq, Repr

/-- OSRSPriceTracker.addSelectedItem (src/ui_tracker.py lines 195-210):
look the name up in `all_items` (exact dict lookup); if found (and the
id is truthy) record it in the tracker dict, fetch one snapshot, and if
the snapshot has the item, INSERT OR REPLACE the row seeding the last
prices from the current ones and append the item to the list widget.
A network exception from fetch_prices propagates. -/
def addSelectedItem (st : AppState) (all_items : List (String × Nat)) (item_name : String)
    (latestResp : HttpResult (List (String × PriceData))) :
    Except PyError (AppState × AddOutcome) :=
  match all_items.lookup item_name with
  | none => .ok (st, .itemNotFound)
  | some item_id =>
      if item_id = 0 then .ok (st, .itemNotFound)
      else
        let items' := dictInsert st.tracker_items item_name item_id
        match fetch_prices items' latestResp with
        | .error e => .error e
        | .ok fr =>
            match fr.result.lookup item_name with
            | none => .ok ({ st with tracker_items := items' }, .noPriceData)
            | some p =>
                .ok ({ st with tracker_items := items',
                               db := insertOrReplaceItems st.db item_name p.high p.low p.high p.low,
                               uiItems := st.uiItems ++ [item_name] },
                     .added (addItemToList item_name p.high p.low p.high p.low))

/-- The body of the refreshPrices loop (src/ui_tracker.py lines 257-263)
for one fetched row `(id, name, high_price, low_price)`: if the name is
in the prices dict, UPDATE the row by id — new prices into
high_price/low_price, the previous ones into last_high_price /
last_low_price — and call updateItemInList with the same values;
otherwise leave the row untouched. -/
def refreshRow (prices : List (String × PriceInfo)) (r : Row) : Row × Option DisplayEntry :=
  match prices.lookup r.name with
  | none => (r, none)
  | some p =>
      ({ r with high_price := p.high, low_price := p.low,
                last_high_price := some r.high_price, last_low_price := some r.low_price },
       some (updateItemInList r.name p.high p.low r.high_price r.low_price))

/-- OSRSPriceTracker.refreshPrices (src/ui_tracker.py lines 253-264):
fetch one snapshot, SELECT all rows, and apply `refreshRow` to each.
The second component collects the updateItemInList calls made, in row
order.  A network exception from fetch_prices propagates. -/
def refreshPrices (st : AppState) (latestResp : HttpResult (List (String × PriceData))) :
    Except PyError (AppState × List DisplayEntry) :=
  match fetch_prices st.tracker_items latestResp with
  | .error e => .error e
  | .ok fr =>
      .ok ({ st with db := { st.db with
                             rows := st.db.rows.map (fun r => (refreshRow fr.result r).1) } },
           st.db.rows.filterMap (fun r => (refreshRow fr.result r).2))

/-- OSRSPriceTracker.removeSelectedItem (src/ui_tracker.py lines
266-274), with `current_item` standing for the selected list row's name
(none when nothing is selected): DELETE FROM items WHERE name = ?,
take the selected item out of the list widget, and drop the name from
the tracker dict if present.  No branch can raise. -/
def removeSelectedItem (st : AppState) (current_item : Option String) : AppState :=
  match current_item with
  | none => st
  | some item_name =>
      { st with
        db := { st.db with rows := st.db.rows.filter (fun r => r.name != item_name) },
        uiItems := st.uiItems.erase item_name,
        tracker_items := st.tracker_items.filter (fun p => p.1 != item_name) }

/-- The stored pair refreshPrices reads as the comparison point for the
next delta (`SELECT id, name, high_price, low_price FROM items`): the
high_price/low_price columns.  This is the pair the spec calls the
baseline (lastHigh/lastLow of its TrackedItem); the columns named
last_high_price/last_low_price only remember the previous value for the
startup display in loadItems and are never read by a refresh. -/
def baseline (r : Row) : Int × Int := (r.high_price, r.low_price)

/-!
Concrete fixtures, taken from the scenarios of the spec: the catalog
entry for Dragon bones (id 526 upstream), a first snapshot reporting
high=2900 low=2850, and a second snapshot reporting high=3000 low=2800.
-/

/-- Two-entry catalog served by a successful /mapping call. -/
def sampleCatalog : List CatalogEntry :=
  [{ id := 526, name := "Dragon bones" }, { id := 4151, name := "Abyssal whip" }]

/-- The `all_items` dict built from `sampleCatalog`. -/
def sampleAllItems : List (String × Nat) := fetch_all_items (.response 200 sampleCatalog)

/-- A freshly started tracker: nothing tracked, fresh database. -/
def emptyState : AppState := { tracker_items := [], db := initDB, uiItems := [] }

/-- Successful /latest response reporting high=2900, low=2850 for id 526. -/
def firstResp : HttpResult (List (String × PriceData)) :=
  .response 200 [("526", { high := 2900, low := 2850, highTime := 1700000000 })]

/-- Successful /latest response reporting high=3000, low=2800 for id 526. -/
def secondResp : HttpResult (List (String × PriceData)) :=
  .response 200 [("526", { high := 3000, low := 2800, highTime := 1700000100 })]

/-- The row `addSelectedItem emptyState … "Dragon bones" firstResp`
persists: both price pairs seeded to the fetched values. -/
def seededRow : Row :=
  { id := 1, name := "Dragon bones", high_price := 2900, low_price := 2850,
    last_high_price := some 2900, last_low_price := some 2850 }

/-- The state after that add. -/
def seededState : AppState :=
  { tracker_items := [("Dragon bones", 526)],
    db := { rows := [seededRow], nextId := 2 },
    uiItems := ["Dragon bones"] }

/-- The row after one refresh of `seededState` against `secondResp`. -/
def refreshedRow : Row :=
  { id := 1, name := "Dragon bones", high_price := 3000, low_price := 2800,
    last_high_price := some 2900, last_low_price := some 2850 }

/-- The state after that refresh. -/
def refreshedState : AppState :=
  { tracker_items := [("Dragon bones", 526)],
    db := { rows := [refreshedRow], nextId := 2 },
    uiItems := ["Dragon bones"] }

/-- The display entry that refresh produces: deltas +100 and -50. -/
def refreshedEntry : DisplayEntry := updateItemInList "Dragon bones" 3000 2800 2900 2850

/-- The row after refreshing `refreshedState` against `secondResp` again. -/
def secondRefreshedRow : Row :=
  { id := 1, name := "Dragon bones", high_price := 3000, low_price := 2800,
    last_high_price := some 3000, last_low_price := some 2800 }

/-- The state after that second refresh. -/
def secondRefreshedState : AppState :=
  { tracker_items := [("Dragon bones", 526)],
    db := { rows := [secondRefreshedRow], nextId := 2 },
    uiItems := ["Dragon bones"] }

/-- The display entry of the second refresh: both deltas zero. -/
def secondEntry : DisplayEntry := updateItemInList "Dragon bones" 3000 2800 3000 2800

/-!
Helper lemmas about the embedded operations.
-/

/-- refreshRow never changes the name of a row. -/
lemma refreshRow_fst_name (prices : List (String × PriceInfo)) (r : Row) :
    ((refreshRow prices r).1).name = r.name := by
  unfold refreshRow
  cases prices.lookup r.name <;> rfl

/-- A row the snapshot does not mention passes through refreshRow. -/
lemma refreshRow_of_lookup_none (prices : List (String × PriceInfo)) (r : Row)
    (h : prices.lookup r.name = none) : refreshRow prices r = (r, none) := by
  unfold refreshRow
  rw [h]

/-- A row the snapshot mentions is updated: new prices become current,
the previous current prices move to the last columns, and the display
entry carries the differences against the previous current prices. -/
lemma refreshRow_of_lookup_some (prices : List (String × PriceInfo)) (r : Row)
    (p : PriceInfo) (h : prices.lookup r.name = some p) :
    refreshRow prices r =
      ({ r with high_price := p.high, low_price := p.low,
                last_high_price := some r.high_price, last_low_price := some r.low_price },
       some (updateItemInList r.name p.high p.low r.high_price r.low_price)) := by
  unfold refreshRow
  rw [h]

/-- Applying refreshRow twice against one snapshot keeps the baseline of
the first application. -/
lemma refreshRow_twice_baseline (prices : List (String × PriceInfo)) (r : Row) :
    baseline ((refreshRow prices ((refreshRow prices r).1)).1) =
      baseline ((refreshRow prices r).1) := by
  cases h : prices.lookup r.name with
  | none =>
      have h2 : prices.lookup ((refreshRow prices r).1).name = none := by
        rw [refreshRow_fst_name]; exact h
      rw [refreshRow_of_lookup_none _ _ h2]
  | some p =>
      have h2 : prices.lookup ((refreshRow prices r).1).name = some p := by
        rw [refreshRow_fst_name]; exact h
      rw [refreshRow_of_lookup_some _ _ p h2, refreshRow_of_lookup_some prices r p h]
      simp [baseline]

/-- The display entry of a second refreshRow against one snapshot has
both changes zero. -/
lemma refreshRow_twice_deltas (prices : List (String × PriceInfo)) (r : Row)
    (e : DisplayEntry) (hsnd : (refreshRow prices ((refreshRow prices r).1)).2 = some e) :
    e.high_change = 0 ∧ e.low_change = 0 := by
  cases hl : prices.lookup r.name with
  | none =>
      have h2 : prices.lookup ((refreshRow prices r).1).name = none := by
        rw [refreshRow_fst_name]; exact hl
      rw [refreshRow_of_lookup_none _ _ h2] at hsnd
      exact absurd hsnd (by simp)
  | some p =>
      have h2 : prices.lookup ((refreshRow prices r).1).name = some p := by
        rw [refreshRow_fst_name]; exact hl
      rw [refreshRow_of_lookup_some _ _ p h2] at hsnd
      simp only [Option.some.injEq] at hsnd
      subst hsnd
      rw [refreshRow_of_lookup_some prices r p hl]
      simp [updateItemInList]

/-- Refreshing against an empty snapshot touches no row. -/
lemma refreshRow_nil_map (rows : List Row) :
    rows.map (fun r => (refreshRow ([] : List (String × PriceInfo)) r).1) = rows := by
  induction rows with
  | nil => rfl
  | cons a t ih => simp only [List.map_cons, ih]; rfl

/-- Refreshing against an empty snapshot reports no entry. -/
lemma refreshRow_nil_filterMap (rows : List Row) :
    rows.filterMap (fun r => (refreshRow ([] : List (String × PriceInfo)) r).2) = [] := by
  induction rows with
  | nil => rfl
  | cons a t ih => simp only [List.filterMap_cons]; exact ih

/-- Refreshing preserves the list of row names. -/
lemma refreshRows_map_name (prices : List (String × PriceInfo)) (rows : List Row) :
    (rows.map (fun r => (refreshRow prices r).1)).map Row.name = rows.map Row.name := by
  rw [List.map_map]
  exact List.map_congr_left (fun r _ => refreshRow_fst_name prices r)

/-- Dict assignment at key `k` does not make a lookup at a different,
previously absent key succeed. -/
lemma lookup_dictInsert_none (d : List (String × Nat)) (k : String) (v : Nat) (nm : String)
    (hne : nm ≠ k) (hd : d.lookup nm = none) : (dictInsert d k v).lookup nm = none := by
  rw [List.lookup_eq_none_iff] at hd ⊢
  intro p hp
  unfold dictInsert at hp
  by_cases hany : d.any (fun q => q.1 == k)
  · rw [if_pos hany] at hp
    obtain ⟨q, hq, hfq⟩ := List.mem_map.mp hp
    by_cases hqk : (q.1 == k) = true
    · rw [if_pos hqk] at hfq
      simp [← hfq, bne_iff_ne, hne]
    · rw [if_neg hqk] at hfq
      exact hfq ▸ hd q hq
  · rw [if_neg hany] at hp
    rcases List.mem_append.mp hp with hmem | hmem
    · exact hd p hmem
    · have hpkv : p = (k, v) := by simpa using hmem
      simp [hpkv, bne_iff_ne, hne]

/-- Folding the catalog into the `all_items` dict introduces no key that
is not a catalog name. -/
lemma lookup_foldl_dictInsert_none (catalog : List CatalogEntry) (acc : List (String × Nat))
    (nm : String) (h : ∀ e ∈ catalog, e.name ≠ nm) (hacc : acc.lookup nm = none) :
    (catalog.foldl (fun d e => dictInsert d e.name e.id) acc).lookup nm = none := by
  induction catalog generalizing acc with
  | nil => exact hacc
  | cons e t ih =>
      simp only [List.foldl_cons]
      exact ih (dictInsert acc e.name e.id) (fun x hx => h x (List.mem_cons_of_mem e hx))
        (lookup_dictInsert_none acc e.name e.id nm
          (fun heq => h e (List.mem_cons_self e t) heq.symm) hacc)

/-- A name no catalog entry carries is absent from `all_items`. -/
lemma lookup_fetch_all_items_none (catalog : List CatalogEntry) (nm : String)
    (h : ∀ e ∈ catalog, e.name ≠ nm) :
    (fetch_all_items (.response 200 catalog)).lookup nm = none := by
  exact lookup_foldl_dictInsert_none catalog [] nm h rfl

/-!
The claims.
-/

/-- C7: the colour updateItemColor assigns — green (improving), red
(declining), amber (mixed) — is a total function of the two deltas:
green exactly when both deltas are positive, red exactly when both are
negative, and amber in every other case, so zero deltas and
sign-disagreement are classified identically as mixed. -/
theorem C7_classification_total (dh dl : Int) :
    (updateItemColor dh dl = "#4CAF50" ↔ dh > 0 ∧ dl > 0) ∧
    (updateItemColor dh dl = "#F44336" ↔ dh < 0 ∧ dl < 0) ∧
    (updateItemColor dh dl = "#FFC107" ↔ ¬(dh > 0 ∧ dl > 0) ∧ ¬(dh < 0 ∧ dl < 0)) := by
  unfold updateItemColor
  split_ifs with h1 h2
  · refine ⟨iff_of_true rfl h1, iff_of_false (by decide) ?_, iff_of_false (by decide) ?_⟩
    · intro hc
      omega
    · intro hc
      exact hc.1 h1
  · refine ⟨iff_of_false (by decide) h1, iff_of_true rfl h2, iff_of_false (by decide) ?_⟩
    intro hc
    exact hc.2 h2
  · exact ⟨iff_of_false (by decide) h1, iff_of_false (by decide) h2, iff_of_true rfl ⟨h1, h2⟩⟩

/-- C9: removeItem is an idempotent delete keyed by name: every row with
the removed name is gone, every other row survives, a second removal of
the same name does not change the store further, and when nothing
carries the name the whole operation is a no-op (it is a total function,
so it cannot raise). -/
theorem C9_remove_idempotent (st : AppState) (item_name : String) :
    (∀ r ∈ (removeSelectedItem st (some item_name)).db.rows, r.name ≠ item_name) ∧
    (∀ r ∈ st.db.rows, r.name ≠ item_name →
        r ∈ (removeSelectedItem st (some item_name)).db.rows) ∧
    (removeSelectedItem (removeSelectedItem st (some item_name)) (some item_name)).db =
      (removeSelectedItem st (some item_name)).db ∧
    ((∀ r ∈ st.db.rows, r.name ≠ item_name) →
      (∀ p ∈ st.tracker_items, p.1 ≠ item_name) →
      item_name ∉ st.uiItems →
      removeSelectedItem st (some item_name) = st) := by
  refine ⟨?_, ?_, ?_, ?_⟩
  · intro r hr
    exact bne_iff_ne.mp (List.mem_filter.mp hr).2
  · intro r hr hne
    exact List.mem_filter.mpr ⟨hr, bne_iff_ne.mpr hne⟩
  · simp only [removeSelectedItem]
    congr 1
    exact List.filter_eq_self.mpr (fun a ha => (List.mem_filter.mp ha).2)
  · intro hrows htracker hui
    have h1 : st.db.rows.filter (fun r => r.name != item_name) = st.db.rows :=
      List.filter_eq_self.mpr (fun a ha => bne_iff_ne.mpr (hrows a ha))
    have h2 : st.tracker_items.filter (fun p => p.1 != item_name) = st.tracker_items :=
      List.filter_eq_self.mpr (fun a ha => bne_iff_ne.mpr (htracker a ha))
    have h3 : st.uiItems.erase item_name = st.uiItems := List.erase_of_not_mem hui
    simp only [removeSelectedItem]
    rw [h1, h2, h3]

/-- C9 witness: removing a name that is tracked nowhere leaves the
concrete state untouched. -/
theorem C9_remove_idempotent_witness :
    removeSelectedItem seededState (some "Abyssal whip") = seededState := by
  exact (C9_remove_idempotent seededState "Abyssal whip").2.2.2
    (by decide) (by decide) (by decide)

/-- C10: with no tracked items, fetch_prices answers the empty mapping
after zero HTTP requests, whatever the remote endpoint would have done,
and refreshPrices on an empty tracked set returns the state unchanged
with an empty report. -/
theorem C10_empty_fetch_no_request (resp : HttpResult (List (String × PriceData)))
    (st : AppState) (hempty : st.tracker_items = []) :
    fetch_prices [] resp =
      .ok { result := [], requestsMade := 0,
            printed := ["No items to track. Add items using add_item() method."] } ∧
    refreshPrices st resp = .ok (st, []) := by
  constructor
  · rfl
  · have hf2 : fetch_prices st.tracker_items resp =
        .ok { result := [], requestsMade := 0,
              printed := ["No items to track. Add items using add_item() method."] } := by
      rw [hempty]
      rfl
    unfold refreshPrices
    simp only [hf2]
    rw [refreshRow_nil_map, refreshRow_nil_filterMap]

/-- C10 witness: the empty tracked set short-circuits even when the
network call would have failed. -/
theorem C10_empty_fetch_no_request_witness :
    fetch_prices [] HttpResult.networkError =
      Except.ok { result := [], requestsMade := 0,
                  printed := ["No items to track. Add items using add_item() method."] } ∧
    refreshPrices emptyState HttpResult.networkError = Except.ok (emptyState, []) := by
  exact C10_empty_fetch_no_request HttpResult.networkError emptyState rfl

/-- Two consecutive addSelectedItem calls for the same name against the
same snapshot, starting from a fresh database. -/
def addDragonBonesTwice : Except PyError (AppState × AddOutcome) :=
  match addSelectedItem emptyState sampleAllItems "Dragon bones" firstResp with
  | .error e => .error e
  | .ok (st1, _) => addSelectedItem st1 sampleAllItems "Dragon bones" firstResp

/-- C3 (the code at the failing input): adding "Dragon bones" twice
persists two rows with the same name.  The schema of initDB has no
UNIQUE constraint on `name`, so the INSERT OR REPLACE of
addSelectedItem never replaces — the id primary key is auto-assigned
fresh each time — and the claimed upsert keyed by name does not happen. -/
theorem C3_duplicate_name_rows :
    addDragonBonesTwice.toOption.map (fun x => x.1.db.rows.map Row.name) =
      some ["Dragon bones", "Dragon bones"] := rfl

/-- C1: for every stored row whose name the fetched snapshot covers,
refreshPrices writes the new prices into the row (the baseline columns
it reads — high_price/low_price — are replaced by the new values, the
previous ones moving to last_high_price/last_low_price), and the
display entry it passes to updateItemInList carries
deltaHigh = newHigh - previous high_price and
deltaLow = newLow - previous low_price. -/
theorem C1_refresh_delta (st : AppState) (resp : HttpResult (List (String × PriceData)))
    (fr : FetchResult) (st' : AppState) (rep : List DisplayEntry)
    (hf : fetch_prices st.tracker_items resp = .ok fr)
    (hr : refreshPrices st resp = .ok (st', rep)) :
    ∀ r ∈ st.db.rows, ∀ p : PriceInfo, fr.result.lookup r.name = some p →
      ({ r with high_price := p.high, low_price := p.low,
                last_high_price := some r.high_price,
                last_low_price := some r.low_price } : Row) ∈ st'.db.rows ∧
      updateItemInList r.name p.high p.low r.high_price r.low_price ∈ rep ∧
      (updateItemInList r.name p.high p.low r.high_price r.low_price).high_change
        = p.high - r.high_price ∧
      (updateItemInList r.name p.high p.low r.high_price r.low_price).low_change
        = p.low - r.low_price := by
  unfold refreshPrices at hr
  rw [hf] at hr
  simp only [Except.ok.injEq, Prod.mk.injEq] at hr
  obtain ⟨hst, hrep⟩ := hr
  intro r hrmem p hp
  have hrow : (refreshRow fr.result r).1 =
      { r with high_price := p.high, low_price := p.low,
               last_high_price := some r.high_price,
               last_low_price := some r.low_price } := by
    rw [refreshRow_of_lookup_some fr.result r p hp]
  have hent : (refreshRow fr.result r).2 =
      some (updateItemInList r.name p.high p.low r.high_price r.low_price) := by
    rw [refreshRow_of_lookup_some fr.result r p hp]
  refine ⟨?_, ?_, by simp [updateItemInList], by simp [updateItemInList]⟩
  · rw [← hst]
    show _ ∈ st.db.rows.map (fun x => (refreshRow fr.result x).1)
    rw [← hrow]
    exact List.mem_map_of_mem _ hrmem
  · rw [← hrep]
    exact List.mem_filterMap.mpr ⟨r, hrmem, hent⟩

/-- C1 witness: the spec scenario — baseline (2900, 2850), snapshot
(3000, 2800) — yields deltas +100 and -50 and the stored pair becomes
(3000, 2800). -/
theorem C1_refresh_delta_witness :
    refreshedRow ∈ refreshedState.db.rows ∧
    refreshedEntry ∈ [refreshedEntry] ∧
    refreshedEntry.high_change = 100 ∧ refreshedEntry.low_change = -50 := by
  have h := C1_refresh_delta seededState secondResp
    { result := [("Dragon bones", { high := 3000, low := 2800, last_updated := 1700000100 })],
      requestsMade := 1, printed := [] }
    refreshedState [refreshedEntry] rfl rfl seededRow (by decide)
    { high := 3000, low := 2800, last_updated := 1700000100 } rfl
  exact ⟨h.1, h.2.1, by decide, by decide⟩

/-- C2: when the name resolves (to a truthy id) and the fetched snapshot
carries price data for it, addSelectedItem persists exactly one new row
whose last_high_price/last_low_price equal the fetched high/low (the
baseline is seeded from the current prices), and the first display
entry shows both deltas 0; when the snapshot has no data for the item,
the add takes the "No price data" branch and the persisted store is
untouched. -/
theorem C2_addItem_seeds_baseline (st : AppState) (all_items : List (String × Nat))
    (item_name : String) (item_id : Nat)
    (resp : HttpResult (List (String × PriceData))) (fr : FetchResult)
    (hid : all_items.lookup item_name = some item_id) (hnz : item_id ≠ 0)
    (hf : fetch_prices (dictInsert st.tracker_items item_name item_id) resp = .ok fr) :
    (∀ p : PriceInfo, fr.result.lookup item_name = some p →
      addSelectedItem st all_items item_name resp =
        .ok ({ st with tracker_items := dictInsert st.tracker_items item_name item_id,
                       db := insertOrReplaceItems st.db item_name p.high p.low p.high p.low,
                       uiItems := st.uiItems ++ [item_name] },
             .added (addItemToList item_name p.high p.low p.high p.low)) ∧
      (insertOrReplaceItems st.db item_name p.high p.low p.high p.low).rows =
        st.db.rows ++ [{ id := st.db.nextId, name := item_name,
                         high_price := p.high, low_price := p.low,
                         last_high_price := some p.high,
                         last_low_price := some p.low }] ∧
      (addItemToList item_name p.high p.low p.high p.low).high_change = 0 ∧
      (addItemToList item_name p.high p.low p.high p.low).low_change = 0) ∧
    (fr.result.lookup item_name = none →
      addSelectedItem st all_items item_name resp =
        .ok ({ st with tracker_items := dictInsert st.tracker_items item_name item_id },
             .noPriceData) ∧
      ({ st with tracker_items := dictInsert st.tracker_items item_name item_id }
          : AppState).db = st.db) := by
  constructor
  · intro p hp
    refine ⟨?_, rfl, by simp [addItemToList], by simp [addItemToList]⟩
    simp only [addSelectedItem, hid, hnz, if_false, hf, hp]
  · intro hp
    refine ⟨?_, rfl⟩
    simp only [addSelectedItem, hid, hnz, if_false, hf, hp]

/-- C2 witness: the spec scenario — snapshot (2900, 2850) for Dragon
bones — seeds the stored pair to (2900, 2850) with first deltas 0. -/
theorem C2_addItem_seeds_baseline_witness :
    addSelectedItem emptyState sampleAllItems "Dragon bones" firstResp =
      Except.ok (seededState,
        AddOutcome.added (addItemToList "Dragon bones" 2900 2850 2900 2850)) ∧
    (addItemToList "Dragon bones" 2900 2850 2900 2850).high_change = 0 ∧
    (addItemToList "Dragon bones" 2900 2850 2900 2850).low_change = 0 := by
  have h := (C2_addItem_seeds_baseline emptyState sampleAllItems "Dragon bones" 526 firstResp
      { result := [("Dragon bones", { high := 2900, low := 2850, last_updated := 1700000000 })],
        requestsMade := 1, printed := [] }
      rfl (by decide) rfl).1
    { high := 2900, low := 2850, last_updated := 1700000000 } rfl
  exact ⟨h.1, h.2.2.1, h.2.2.2⟩

/-- Any delivered response — whatever its status — leaves fetch_prices
exception-free. -/
lemma fetch_prices_response_ok (items : List (String × Nat)) (status : Nat)
    (body : List (String × PriceData)) :
    ∃ fr, fetch_prices items (.response status body) = .ok fr := by
  unfold fetch_prices
  by_cases h : items.isEmpty <;> by_cases hs : (status == 200) = true <;>
    simp [h, hs]

/-- C4 counterexample: a network error raised by the HTTP client inside
get_item_id is not caught: the call propagates the exception instead of
returning the NotFound indicator (None), contradicting the claim that
every operation returns a value or an explicit failure indicator. -/
theorem C4_counterexample :
    get_item_id HttpResult.networkError "Dragon bones" =
      Except.error PyError.requestException ∧
    get_item_id HttpResult.networkError "Dragon bones" ≠ Except.ok none :=
  ⟨rfl, fun h => Except.noConfusion h⟩

/-- C4 amended: for every response the HTTP layer actually delivers
(any status code) no exception escapes: get_item_id returns a value —
None both on non-2xx and on no match — and fetch_prices,
addSelectedItem and refreshPrices complete with a result; only a raised
network error propagates. -/
theorem C4_no_exception_on_delivered_response (status : Nat) (catalog : List CatalogEntry)
    (item_name : String) (items : List (String × Nat)) (body : List (String × PriceData))
    (st : AppState) (all_items : List (String × Nat)) :
    (∃ o, get_item_id (.response status catalog) item_name = .ok o) ∧
    (status ≠ 200 → get_item_id (.response status catalog) item_name = .ok none) ∧
    (∃ fr, fetch_prices items (.response status body) = .ok fr) ∧
    (∃ out, addSelectedItem st all_items item_name (.response status body) = .ok out) ∧
    (∃ out, refreshPrices st (.response status body) = .ok out) := by
  have hred : get_item_id (.response status catalog) item_name =
      if (status == 200) = true then
        .ok ((catalog.find? (fun it => it.name.toLower == item_name.toLower)).map
              CatalogEntry.id)
      else .ok none := rfl
  refine ⟨?_, ?_, fetch_prices_response_ok items status body, ?_, ?_⟩
  · rw [hred]
    by_cases hs : (status == 200) = true
    · rw [if_pos hs]
      exact ⟨_, rfl⟩
    · rw [if_neg hs]
      exact ⟨_, rfl⟩
  · intro hs
    have hs2 : ¬((status == 200) = true) := by simpa using hs
    rw [hred, if_neg hs2]
  · cases hl : all_items.lookup item_name with
    | none =>
        refine ⟨(st, .itemNotFound), ?_⟩
        simp [addSelectedItem, hl]
    | some i =>
        by_cases hz : i = 0
        · refine ⟨(st, .itemNotFound), ?_⟩
          simp [addSelectedItem, hl, hz]
        · obtain ⟨fr, hfr⟩ :=
            fetch_prices_response_ok (dictInsert st.tracker_items item_name i) status body
          cases hp : fr.result.lookup item_name with
          | none =>
              refine ⟨({ st with tracker_items := dictInsert st.tracker_items item_name i },
                       .noPriceData), ?_⟩
              simp [addSelectedItem, hl, hz, hfr, hp]
          | some p =>
              refine ⟨({ st with
                         tracker_items := dictInsert st.tracker_items item_name i,
                         db := insertOrReplaceItems st.db item_name p.high p.low p.high p.low,
                         uiItems := st.uiItems ++ [item_name] },
                       .added (addItemToList item_name p.high p.low p.high p.low)), ?_⟩
              simp [addSelectedItem, hl, hz, hfr, hp]
  · obtain ⟨fr, hfr⟩ := fetch_prices_response_ok st.tracker_items status body
    refine ⟨({ st with db := { st.db with
                 rows := st.db.rows.map (fun r => (refreshRow fr.result r).1) } },
             st.db.rows.filterMap (fun r => (refreshRow fr.result r).2)), ?_⟩
    simp [refreshPrices, hfr]

/-- C4 witness: a delivered 500 answer makes get_item_id return None
and fetch_prices return the empty result, with no exception. -/
theorem C4_no_exception_on_delivered_response_witness :
    get_item_id (HttpResult.response 500 sampleCatalog) "Dragon bones" = Except.ok none ∧
    fetch_prices [("Dragon bones", 526)] (HttpResult.response 500 []) =
      Except.ok { result := [], requestsMade := 1,
                  printed := ["Failed to fetch prices. Please try again later."] } := by
  have h := C4_no_exception_on_delivered_response 500 sampleCatalog "Dragon bones"
    [("Dragon bones", 526)] [] emptyState sampleAllItems
  exact ⟨h.2.1 (by decide), rfl⟩

/-- C5 counterexample: when the whole fetch fails (HTTP 500), the
tracked item is absent from the (empty) snapshot and its baseline is
retained with nothing deleted — but the refresh cycle's outputs never
name it: the report list is empty and the only console message is the
global failure line, so the item is not "reported separately as stale"
to the presentation layer. -/
theorem C5_counterexample :
    fetch_prices seededState.tracker_items (HttpResult.response 500 []) =
      Except.ok { result := [], requestsMade := 1,
                  printed := ["Failed to fetch prices. Please try again later."] } ∧
    refreshPrices seededState (HttpResult.response 500 []) =
      Except.ok (seededState, []) ∧
    (["Failed to fetch prices. Please try again later."].contains
        ("No data available for " ++ "Dragon bones")) = false :=
  ⟨rfl, rfl, by decide⟩

/-- C5 amended: a tracked row whose name the snapshot does not cover
keeps its stored prices and is not deleted — refresh preserves the row
list's names and length — and when the fetch itself succeeded (status
200) each in-memory tracked item missing from the data gets a per-item
"No data available" console notice; a failed fetch produces no per-item
notice, and no stale flag reaches the presentation layer in either
case. -/
theorem C5_absent_items_kept (st : AppState) (resp : HttpResult (List (String × PriceData)))
    (fr : FetchResult) (st' : AppState) (rep : List DisplayEntry)
    (hf : fetch_prices st.tracker_items resp = .ok fr)
    (hr : refreshPrices st resp = .ok (st', rep)) :
    (∀ r ∈ st.db.rows, fr.result.lookup r.name = none → r ∈ st'.db.rows) ∧
    st'.db.rows.map Row.name = st.db.rows.map Row.name ∧
    st'.db.rows.length = st.db.rows.length ∧
    (∀ status data, resp = .response status data → status = 200 →
      ∀ nm id, (nm, id) ∈ st.tracker_items → data.lookup (toString id) = none →
        ("No data available for " ++ nm) ∈ fr.printed) := by
  unfold refreshPrices at hr
  rw [hf] at hr
  simp only [Except.ok.injEq, Prod.mk.injEq] at hr
  obtain ⟨hst, hrep⟩ := hr
  refine ⟨?_, ?_, ?_, ?_⟩
  · intro r hrm hnone
    rw [← hst]
    show _ ∈ st.db.rows.map (fun x => (refreshRow fr.result x).1)
    have hfix : (refreshRow fr.result r).1 = r := by
      rw [refreshRow_of_lookup_none _ _ hnone]
    rw [← hfix]
    exact List.mem_map_of_mem _ hrm
  · rw [← hst]
    show (st.db.rows.map fun x => (refreshRow fr.result x).1).map Row.name = _
    exact refreshRows_map_name fr.result st.db.rows
  · rw [← hst]
    show (st.db.rows.map fun x => (refreshRow fr.result x).1).length = _
    exact List.length_map _ _
  · rintro status data rfl h200 nm id hmem hnone
    subst h200
    by_cases he : st.tracker_items.isEmpty
    · have : st.tracker_items = [] := by simpa using he
      rw [this] at hmem
      exact absurd hmem (List.not_mem_nil _)
    · unfold fetch_prices at hf
      rw [if_neg he] at hf
      simp only [beq_self_eq_true, if_true, Except.ok.injEq] at hf
      rw [← hf]
      exact List.mem_filterMap.mpr ⟨(nm, id), hmem, by simp [hnone]⟩

/-- C5 witness: a successful fetch whose data omits the tracked id
leaves the row in place and prints the per-item notice. -/
theorem C5_absent_items_kept_witness :
    seededRow ∈ seededState.db.rows ∧
    ("No data available for " ++ "Dragon bones") ∈
      ["No data available for Dragon bones"] := by
  have h := C5_absent_items_kept seededState (HttpResult.response 200 [])
    { result := [], requestsMade := 1,
      printed := ["No data available for Dragon bones"] }
    seededState [] rfl rfl
  exact ⟨h.1 seededRow (by decide) rfl,
         h.2.2.2 200 [] rfl rfl "Dragon bones" 526 (by decide) rfl⟩

/-- C6: refreshing twice against identical snapshot data makes every
display entry of the second refresh carry zero deltas, and leaves the
stored baseline — the high_price/low_price pair the next refresh reads —
of every row exactly as the first refresh left it. -/
theorem C6_refresh_idempotent (st : AppState) (resp : HttpResult (List (String × PriceData)))
    (st1 : AppState) (rep1 : List DisplayEntry) (st2 : AppState) (rep2 : List DisplayEntry)
    (h1 : refreshPrices st resp = .ok (st1, rep1))
    (h2 : refreshPrices st1 resp = .ok (st2, rep2)) :
    (∀ e ∈ rep2, e.high_change = 0 ∧ e.low_change = 0) ∧
    st2.db.rows.map baseline = st1.db.rows.map baseline := by
  unfold refreshPrices at h1 h2
  cases hfc : fetch_prices st.tracker_items resp with
  | error e =>
      rw [hfc] at h1
      exact absurd h1 (by simp)
  | ok fr =>
      rw [hfc] at h1
      simp only [Except.ok.injEq, Prod.mk.injEq] at h1
      obtain ⟨hst1, hrep1⟩ := h1
      have htr : st1.tracker_items = st.tracker_items := by rw [← hst1]
      rw [htr, hfc] at h2
      simp only [Except.ok.injEq, Prod.mk.injEq] at h2
      obtain ⟨hst2, hrep2⟩ := h2
      have hrows1 : st1.db.rows = st.db.rows.map (fun r => (refreshRow fr.result r).1) := by
        rw [← hst1]
      constructor
      · intro e he
        rw [← hrep2, hrows1] at he
        obtain ⟨r1, hr1, hg⟩ := List.mem_filterMap.mp he
        obtain ⟨r0, hr0, hfr0⟩ := List.mem_map.mp hr1
        refine refreshRow_twice_deltas fr.result r0 e ?_
        rw [hfr0]
        exact hg
      · rw [← hst2]
        show ((st1.db.rows.map fun r => (refreshRow fr.result r).1).map baseline) = _
        rw [hrows1, List.map_map, List.map_map, List.map_map]
        refine List.map_congr_left (fun r _ => ?_)
        simpa using refreshRow_twice_baseline fr.result r

/-- C6 witness: the second refresh of the spec scenario reports deltas
(0, 0) and keeps the stored pair (3000, 2800). -/
theorem C6_refresh_idempotent_witness :
    secondEntry.high_change = 0 ∧ secondEntry.low_change = 0 ∧
    secondRefreshedState.db.rows.map baseline = refreshedState.db.rows.map baseline := by
  have h := C6_refresh_idempotent seededState secondResp refreshedState [refreshedEntry]
    secondRefreshedState [secondEntry] rfl rfl
  exact ⟨(h.1 secondEntry (by decide)).1, (h.1 secondEntry (by decide)).2, h.2⟩

/-- C8: name resolution (get_item_id) over a delivered catalog succeeds
exactly when some catalog entry's name equals the query up to letter
case; and for a name matching no entry even case-insensitively,
addSelectedItem takes the not-found branch and returns the state
unchanged. -/
theorem C8_case_insensitive_resolution (catalog : List CatalogEntry) (item_name : String)
    (st : AppState) (resp : HttpResult (List (String × PriceData))) :
    ((∃ i, get_item_id (.response 200 catalog) item_name = .ok (some i)) ↔
      ∃ e ∈ catalog, e.name.toLower = item_name.toLower) ∧
    ((∀ e ∈ catalog, e.name.toLower ≠ item_name.toLower) →
      addSelectedItem st (fetch_all_items (.response 200 catalog)) item_name resp =
        .ok (st, .itemNotFound)) := by
  constructor
  · have hreduce : get_item_id (.response 200 catalog) item_name =
        .ok ((catalog.find? (fun it => it.name.toLower == item_name.toLower)).map
              CatalogEntry.id) := rfl
    rw [hreduce]
    constructor
    · rintro ⟨i, hi⟩
      simp only [Except.ok.injEq] at hi
      obtain ⟨e, hfind, hid⟩ := Option.map_eq_some'.mp hi
      refine ⟨e, List.mem_of_find?_eq_some hfind, ?_⟩
      have := List.find?_some hfind
      simpa using this
    · rintro ⟨e, hmem, heq⟩
      have hsome : (catalog.find? (fun it => it.name.toLower == item_name.toLower)).isSome :=
        List.find?_isSome.mpr ⟨e, hmem, by simpa using heq⟩
      obtain ⟨e2, he2⟩ := Option.isSome_iff_exists.mp hsome
      refine ⟨e2.id, ?_⟩
      rw [he2]
      rfl
  · intro hnl
    have hnone : (fetch_all_items (.response 200 catalog)).lookup item_name = none :=
      lookup_fetch_all_items_none catalog item_name
        (fun e he heq => hnl e he (congrArg String.toLower heq))
    unfold addSelectedItem
    rw [hnone]

/-- C8 witness: a name the catalog does not carry is rejected and the
state returned unchanged (String.toLower recurses on string positions,
which the kernel cannot evaluate, so the witness catalog is empty). -/
theorem C8_case_insensitive_resolution_witness :
    addSelectedItem emptyState (fetch_all_items (HttpResult.response 200 []))
        "Rune scimitar" firstResp =
      Except.ok (emptyState, AddOutcome.itemNotFound) := by
  exact (C8_case_insensitive_resolution [] "Rune scimitar" emptyState firstResp).2
    (by simp)
